import Mathlib

/-!
Shallow embedding of `src/ESMF/api/grid.py` (the `Grid` wrapper class) and
proofs about its bookkeeping layer.

Machine integers are modelled as `Int`/`Nat`.  Numpy arrays are modelled as a
shape together with a flat (row-major) data list; the wrapper only ever writes
the literals `0` and `1` into buffers, so both the `I4` and `R8` element kinds
are embedded into the single carrier `Int`.  The native ESMF library (an
external collaborator reached through a foreign-function boundary) is modelled
as an oracle structure `NativeEnv`; a `none` answer from the bounds oracle
models a failing native call.  `warnings.warn` has no effect on program state,
so warnings are modelled as a returned list of messages where a claim mentions
them.  Python exceptions are modelled with explicit error results; where the
claim concerns the state of `self` at the moment an exception propagates, the
embedded function returns the post-state of `self` alongside the error.
-/

/-- Element carrier for buffer contents (both typekinds I4 and R8 embed here;
the wrapper layer only ever writes the literals 0 and 1). -/
abbrev Val := Int

/-- ESMF numeric typekinds used by the Grid wrapper. -/
inductive TypeKind
  | I4
  | R8
deriving DecidableEq

/-- The grid item kinds.  `INVALID` stands for any value that is neither
`MASK` nor `AREA` (the Python enum has further non-item members). -/
inductive GridItem
  | MASK
  | AREA
  | INVALID
deriving DecidableEq

/-- Supported grid file formats, plus a stand-in for any other value. -/
inductive FileFormat
  | SCRIP
  | GRIDSPEC
  | OTHER
deriving DecidableEq

/-- Errors raised by the Grid wrapper.  `NativeCallFailed` models a raw
exception escaping an unwrapped native call; `AssertionFailed` models a failed
`assert` statement. -/
inductive GridError
  | GridArgumentError
  | GridItemAlreadyLinked
  | GridItemNotSupported
  | GridBoundsNotCreated
  | SerialMethod
  | TypeErrorNumPeriDims
  | ValueErrorCoordDims
  | ValueErrorRank
  | NativeCallFailed
  | AssertionFailed
deriving DecidableEq

namespace StaggerLoc

/-- Stagger-location id CENTER (2D), from ESMF.api.constants. -/
def CENTER : Nat := 0

/-- Stagger-location id CORNER (2D), from ESMF.api.constants. -/
def CORNER : Nat := 3

/-- Stagger-location id CENTER_VCENTER (3D), from ESMF.api.constants. -/
def CENTER_VCENTER : Nat := 0

/-- Stagger-location id CORNER_VFACE (3D), from ESMF.api.constants. -/
def CORNER_VFACE : Nat := 7

end StaggerLoc

/-- A numpy array: a shape (numpy shapes derived from `ub - lb` are integer
vectors) and a flat row-major data list. -/
structure NdArray where
  shape : List Int
  data : List Val
deriving DecidableEq

/-- Number of elements described by a shape (negative extents clamp to 0,
as numpy rejects them; they never occur in practice). -/
def numel (shape : List Int) : Nat :=
  (shape.map Int.toNat).prod

/-- Model of `np.zeros(shape=sz, dtype=...)`. -/
def npZeros (shape : List Int) : NdArray :=
  { shape := shape, data := List.replicate (numel shape) 0 }

/-- Model of the in-place fill `a[...] = v`. -/
def fillAll (a : NdArray) (v : Val) : NdArray :=
  { shape := a.shape, data := a.data.map (fun _ => v) }

/-- Model of `ndarray_from_esmf(data, typekind, shape)`: a view of the given
native buffer with the given shape. -/
def ndarray_from_esmf (buf : List Val) (shape : List Int) : NdArray :=
  { shape := shape, data := buf.take (numel shape) }

/-- Model of `ndarray.all()`: reduce the whole array to a single boolean,
true when every element is nonzero.  (This is what the assertions in
`_verify_grid_bounds_` actually call.) -/
def npAll (xs : List Int) : Bool :=
  xs.all (fun x => x != 0)

/-- Elementwise `ub - lb` on integer vectors. -/
def zipSub (ub lb : List Int) : List Int :=
  List.zipWith (fun u l => u - l) ub lb

/-- The native ESMF library, modelled as an oracle.  `coordBounds` is
`ESMP_GridGetCoordBounds` (returning `none` models a failing native call);
`coordPtr` is `ESMP_GridGetCoordPtr`; `itemPtr` is `ESMP_GridGetItem`;
`scripInq` is `ESMP_ScripInq`; `gridspecInq` is `ESMP_GridspecInq`.
`ESMP_GridAddCoord` and `ESMP_GridAddItem` are native-side allocations with no
Python-visible result; the embedding only counts them where a claim needs it. -/
structure NativeEnv where
  coordBounds : Nat → Option (List Int × List Int)
  coordPtr : Nat → Nat → List Val
  itemPtr : GridItem → Nat → List Val
  scripInq : String → Nat × List Int
  gridspecInq : String → Nat × Nat × List Int

/-- The Python-side state of a `Grid` object: the shadow metadata the wrapper
maintains alongside the opaque native handle.  `finalized = none` models an
object on which the `_finalized` attribute has not been set yet (a partially
constructed object). -/
structure Grid where
  max_index : List Int
  rank : Nat
  ndims : Nat
  typekind : TypeKind
  areatype : TypeKind
  num_peri_dims : Nat
  periodic_dim : Option Int
  pole_dim : Option Int
  coord_sys : Option Int
  staggerloc : List Bool
  lower_bounds : List (Option (List Int))
  upper_bounds : List (Option (List Int))
  size : List (Option (List Int))
  coords : List (List (Option NdArray))
  mask : List (Option NdArray)
  area : List (Option NdArray)
  has_corners : Bool
  finalized : Option Bool
deriving DecidableEq

/-- `self._coords[stagger][dim]`. -/
def coordAt (g : Grid) (stagger dim : Nat) : Option NdArray :=
  (g.coords.getD stagger []).getD dim none

/-- `self._coords[stagger][dim] = v`. -/
def setCoord (g : Grid) (stagger dim : Nat) (v : Option NdArray) : Grid :=
  { g with coords := g.coords.set stagger ((g.coords.getD stagger []).set dim v) }

/-- In-place modification of the array stored at `self._coords[stagger][dim]`
(the slot must be populated; `Option.map` models that). -/
def modifyCoord (g : Grid) (stagger dim : Nat) (f : NdArray → NdArray) : Grid :=
  setCoord g stagger dim ((coordAt g stagger dim).map f)

/-- `self._mask[stagger] = v`. -/
def setMask (g : Grid) (stagger : Nat) (v : Option NdArray) : Grid :=
  { g with mask := g.mask.set stagger v }

/-- `self._area[stagger] = v`. -/
def setArea (g : Grid) (stagger : Nat) (v : Option NdArray) : Grid :=
  { g with area := g.area.set stagger v }

/-- In-place fill of the mask buffer at a stagger. -/
def modifyMask (g : Grid) (stagger : Nat) (f : NdArray → NdArray) : Grid :=
  setMask g stagger ((g.mask.getD stagger none).map f)

/-- In-place fill of the area buffer at a stagger. -/
def modifyArea (g : Grid) (stagger : Nat) (f : NdArray → NdArray) : Grid :=
  setArea g stagger ((g.area.getD stagger none).map f)

/-- The periodic-dimension and pole-dimension pair of a grid (the two fields
that only `__init__` ever writes). -/
def ppOf (g : Grid) : Option Int × Option Int :=
  (g.periodic_dim, g.pole_dim)

/-- `Grid._verify_grid_bounds_`.  First access caches the native bounds and
derives the size; a later access re-fetches and runs the source's three
`assert` statements.  Note the source compares `cached.all() == fresh.all()`,
i.e. aggregated truthiness, not elementwise equality: the embedding reproduces
that comparison exactly. -/
def verifyGridBounds (g : Grid) (env : NativeEnv) (stagger : Nat) :
    Except GridError Grid :=
  match g.lower_bounds.getD stagger none with
  | none =>
    match env.coordBounds stagger with
    | none => .error .GridBoundsNotCreated
    | some (lb, ub) =>
      .ok { g with
        lower_bounds := g.lower_bounds.set stagger (some lb),
        upper_bounds := g.upper_bounds.set stagger (some ub),
        size := g.size.set stagger (some (zipSub ub lb)) }
  | some clb =>
    match env.coordBounds stagger with
    | none => .error .NativeCallFailed
    | some (lb, ub) =>
      if npAll clb = npAll lb
          ∧ npAll ((g.upper_bounds.getD stagger none).getD []) = npAll ub
          ∧ npAll ((g.size.getD stagger none).getD []) = npAll (zipSub ub lb)
      then .ok g
      else .error .AssertionFailed

/-- Sets `self._has_corners = True` when the stagger is CORNER or
CORNER_VFACE (tail of `_link_coord_buffer_` and of the 1-D variant). -/
def cornerFlag (g : Grid) (stagger : Nat) : Grid :=
  if stagger = StaggerLoc.CORNER ∨ stagger = StaggerLoc.CORNER_VFACE then
    { g with has_corners := true }
  else g

/-- `Grid._link_coord_buffer_`: alias the native coordinate buffer of one
dimension into the coords slot. -/
def linkCoordBuffer (g : Grid) (env : NativeEnv) (coord_dim stagger : Nat) :
    Grid × Option GridError :=
  let data := env.coordPtr coord_dim stagger
  match env.coordBounds stagger with
  | none => (g, some .NativeCallFailed)
  | some (lb, ub) =>
    let gridCoordP := ndarray_from_esmf data (zipSub ub lb)
    (cornerFlag (setCoord g stagger coord_dim (some gridCoordP)) stagger, none)

/-- The loop `for xyz in range(n): self._link_coord_buffer_(xyz, stagger)`. -/
def linkCoordLoop (g : Grid) (env : NativeEnv) (stagger : Nat) :
    Nat → Grid × Option GridError
  | 0 => (g, none)
  | n + 1 =>
    match linkCoordLoop g env stagger n with
    | (g1, some e) => (g1, some e)
    | (g1, none) => linkCoordBuffer g1 env n stagger

/-- All multi-indices of a rectangular box of the given extents, in row-major
order. -/
def multiIndices : List Nat → List (List Nat)
  | [] => [[]]
  | n :: rest => ((List.range n).map (fun i => (multiIndices rest).map (fun t => i :: t))).flatten

/-- Row-major flat index of a multi-index in an array of the given shape. -/
def flatIdx (shape : List Int) (ix : List Nat) : Nat :=
  (List.zip shape ix).foldl (fun acc p => acc * p.1.toNat + p.2) 0

/-- Outer-product coordinate expansion: component `k` of
`np.meshgrid(axes..., indexing="ij")`. -/
def meshAxis (axes : List (List Val)) (k : Nat) : NdArray :=
  let dims := axes.map List.length
  { shape := dims.map Int.ofNat,
    data := (multiIndices dims).map (fun ix => (axes.getD k []).getD (ix.getD k 0) 0) }

/-- `Grid._link_coord_buffer_1Dcoords`: expand per-dimension 1-D axis arrays
into full-rank coordinate grids (rank 2 or 3 only). -/
def linkCoordBuffer1D (g : Grid) (env : NativeEnv) (stagger : Nat) :
    Grid × Option GridError :=
  match env.coordBounds stagger with
  | none => (g, some .NativeCallFailed)
  | some (lb, ub) =>
    let d := zipSub ub lb
    let gc0 := (env.coordPtr 0 stagger).take (d.getD 0 0).toNat
    let gc1 := (env.coordPtr 1 stagger).take (d.getD 1 0).toNat
    if g.rank = 3 then
      let gc2 := (env.coordPtr 2 stagger).take (d.getD 2 0).toNat
      let axes := [gc0, gc1, gc2]
      let g1 := setCoord (setCoord (setCoord g stagger 0 (some (meshAxis axes 0)))
        stagger 1 (some (meshAxis axes 1))) stagger 2 (some (meshAxis axes 2))
      (cornerFlag g1 stagger, none)
    else if g.rank = 2 then
      let axes := [gc0, gc1]
      let g1 := setCoord (setCoord g stagger 0 (some (meshAxis axes 0)))
        stagger 1 (some (meshAxis axes 1))
      (cornerFlag g1 stagger, none)
    else (g, some .ValueErrorRank)

/-- `Grid._allocate_coords_`: verify bounds, pre-fill the coord slots with
zero arrays, link the native buffers (standard or 1-D tensor case), then
zero-initialize unless the grid came from file.  The returned grid is the
state of `self` when the call returns or when an exception propagates. -/
def allocateCoords (g : Grid) (env : NativeEnv) (stagger : Nat) (from_file : Bool) :
    Grid × Option GridError :=
  match verifyGridBounds g env stagger with
  | .error e => (g, some e)
  | .ok g1 =>
    let sz := (g1.size.getD stagger none).getD []
    let z := npZeros sz
    let g2 := setCoord (setCoord g1 stagger 0 (some z)) stagger 1 (some z)
    let g3 := if g2.rank = 3 then setCoord g2 stagger 2 (some z) else g2
    match
      (if g3.ndims = g3.rank ∨ g3.ndims = 0 then
        linkCoordLoop g3 env stagger g3.rank
      else if g3.ndims < g3.rank then
        if ¬ g3.ndims = 1 then (g3, some .ValueErrorCoordDims)
        else linkCoordBuffer1D g3 env stagger
      else (g3, none))
    with
    | (g4, some e) => (g4, some e)
    | (g4, none) =>
      if from_file then (g4, none)
      else
        let g5 := modifyCoord g4 stagger 0 (fun a => fillAll a 0)
        let g6 := modifyCoord g5 stagger 1 (fun a => fillAll a 0)
        let g7 := if g6.rank = 3 then modifyCoord g6 stagger 2 (fun a => fillAll a 0) else g6
        (g7, none)

/-- Warning text emitted when re-adding an existing coordinate stagger. -/
def coordWarn : String := "This coordinate has already been added."

/-- The loop body of `Grid.add_coords`: for each requested stagger location,
warn and skip if already populated, otherwise natively allocate
(`ESMP_GridAddCoord`, when not from file), allocate/link the Python views and
set the stagger flag.  Returns the post-state of `self`, the warnings emitted,
and the pending exception if one was raised. -/
def addCoordsLoop (env : NativeEnv) (from_file : Bool) :
    Grid → List Nat → Grid × List String × Option GridError
  | g, [] => (g, [], none)
  | g, s :: rest =>
    if (coordAt g s 0).isSome then
      let r := addCoordsLoop env from_file g rest
      (r.1, coordWarn :: r.2.1, r.2.2)
    else
      match allocateCoords g env s from_file with
      | (g1, some e) => (g1, [], some e)
      | (g1, none) =>
        let g2 := { g1 with staggerloc := g1.staggerloc.set s true }
        addCoordsLoop env from_file g2 rest

/-- `Grid.add_coords`.  A `none` staggerloc defaults to `[CENTER]`; a scalar
argument corresponds to a one-element list.  The third component is the value
returned to the caller: the coordinate view when exactly one stagger and a
coordinate dimension were named, `None` otherwise. -/
def addCoords (g : Grid) (env : NativeEnv) (staggerloc : Option (List Nat))
    (coord_dim : Option Nat) (from_file : Bool) :
    Grid × List String × Except GridError (Option NdArray) :=
  let sl := staggerloc.getD [StaggerLoc.CENTER]
  match addCoordsLoop env from_file g sl with
  | (g1, ws, some e) => (g1, ws, .error e)
  | (g1, ws, none) =>
    match coord_dim with
    | some cd =>
      if sl.length = 1 then (g1, ws, .ok (coordAt g1 (sl.headD 0) cd))
      else (g1, ws, .ok none)
    | none => (g1, ws, .ok none)

/-- `Grid._link_item_buffer_`: alias the native item buffer into the mask or
area slot. -/
def linkItemBuffer (g : Grid) (env : NativeEnv) (item : GridItem) (stagger : Nat) :
    Grid × Option GridError :=
  let data := env.itemPtr item stagger
  match env.coordBounds stagger with
  | none => (g, some .NativeCallFailed)
  | some (lb, ub) =>
    match item with
    | .MASK => (setMask g stagger (some (ndarray_from_esmf data (zipSub ub lb))), none)
    | .AREA => (setArea g stagger (some (ndarray_from_esmf data (zipSub ub lb))), none)
    | .INVALID => (g, some .GridItemNotSupported)

/-- `Grid._allocate_items_`: verify bounds, pre-fill the item slot with a zero
array, link the native buffer, then initialize (mask to ones, area to zeros)
unless the grid came from file. -/
def allocateItems (g : Grid) (env : NativeEnv) (item : GridItem) (stagger : Nat)
    (from_file : Bool) : Grid × Option GridError :=
  match verifyGridBounds g env stagger with
  | .error e => (g, some e)
  | .ok g1 =>
    let sz := (g1.size.getD stagger none).getD []
    match
      (match item with
       | GridItem.MASK => (setMask g1 stagger (some (npZeros sz)), (none : Option GridError))
       | GridItem.AREA => (setArea g1 stagger (some (npZeros sz)), none)
       | GridItem.INVALID => (g1, some .GridItemNotSupported))
    with
    | (g2, some e) => (g2, some e)
    | (g2, none) =>
      match linkItemBuffer g2 env item stagger with
      | (g3, some e) => (g3, some e)
      | (g3, none) =>
        if from_file then (g3, none)
        else
          match item with
          | GridItem.MASK => (modifyMask g3 stagger (fun a => fillAll a 1), none)
          | GridItem.AREA => (modifyArea g3 stagger (fun a => fillAll a 0), none)
          | GridItem.INVALID => (g3, some .GridItemNotSupported)

/-- The loop body of `Grid.add_item`: for each requested stagger, fail hard if
the item is already linked there, otherwise natively allocate
(`ESMP_GridAddItem`, when not from file) and allocate/link the Python view.
Returns the post-state of `self`, the number of native `ESMP_GridAddItem`
calls performed, and the pending exception if one was raised. -/
def addItemLoop (env : NativeEnv) (item : GridItem) (from_file : Bool) :
    Grid → List Nat → Grid × Nat × Option GridError
  | g, [] => (g, 0, none)
  | g, s :: rest =>
    let check : Option GridError :=
      match item with
      | GridItem.MASK =>
        if (g.mask.getD s none).isSome then some .GridItemAlreadyLinked else none
      | GridItem.AREA =>
        if (g.area.getD s none).isSome then some .GridItemAlreadyLinked else none
      | GridItem.INVALID => some .GridItemNotSupported
    match check with
    | some e => (g, 0, some e)
    | none =>
      let c : Nat := if from_file then 0 else 1
      match allocateItems g env item s from_file with
      | (g1, some e) => (g1, c, some e)
      | (g1, none) =>
        let r := addItemLoop env item from_file g1 rest
        (r.1, c + r.2.1, r.2.2)

/-- `Grid.add_item`.  A `none` staggerloc defaults to `[CENTER]`; a scalar
argument corresponds to a one-element list.  Returns the post-state of `self`,
the number of native `ESMP_GridAddItem` calls, and the result: the item view
when exactly one stagger was requested, `None` otherwise, or the raised
error. -/
def addItem (g : Grid) (env : NativeEnv) (item : GridItem)
    (staggerloc : Option (List Nat)) (from_file : Bool) :
    Grid × Nat × Except GridError (Option NdArray) :=
  let sl := staggerloc.getD [StaggerLoc.CENTER]
  match addItemLoop env item from_file g sl with
  | (g1, n, some e) => (g1, n, .error e)
  | (g1, n, none) =>
    if sl.length = 1 then
      match item with
      | GridItem.MASK => (g1, n, .ok (g1.mask.getD (sl.headD 0) none))
      | GridItem.AREA => (g1, n, .ok (g1.area.getD (sl.headD 0) none))
      | GridItem.INVALID => (g1, n, .error .GridItemNotSupported)
    else (g1, n, .ok none)

/-- `Grid.copy`: shallow copy with the copy marked as already finalized so
that destroying the copy never frees the shared native memory. -/
def gridCopy (g : Grid) : Grid :=
  { g with finalized := some true }

/-- `Grid.destroy`: release the native memory once.  Returns the new state and
whether the native `ESMP_GridDestroy` call was invoked.  A missing
`_finalized` attribute (`none`) or an already-finalized grid is a no-op. -/
def gridDestroy (g : Grid) : Grid × Bool :=
  match g.finalized with
  | none => (g, false)
  | some true => (g, false)
  | some false => ({ g with finalized := some true }, true)

/-- Modelled from the spec: sub-box restriction of an array view (the slicing
helpers `get_formatted_slice` / `get_none_or_ssslice` live in
`ESMF.util.slicing`, which is not under `src/`).  `slc` gives a start and a
length per dimension; the result is the corresponding row-major sub-box. -/
def ndSliceSub (a : NdArray) (slc : List (Nat × Nat)) : NdArray :=
  let lens := slc.map (fun p => p.2)
  { shape := lens.map Int.ofNat,
    data := (multiIndices lens).map
      (fun ix => a.data.getD (flatIdx a.shape (List.zipWith (fun p i => p.1 + i) slc ix)) 0) }

/-- Modelled from the spec: the serial branch of `Grid.__getitem__` — shallow
copy (marked finalized), re-slice every stagger location's coordinate, mask
and area views, and recompute the upper bounds from the sliced coordinate
shapes; lower bounds are left unsliced. -/
def sliceSerial (g : Grid) (slc : List (Nat × Nat)) : Grid :=
  let ret := gridCopy g
  { ret with
    coords := (List.range (2 ^ g.rank)).map
      (fun s => (List.range g.rank).map
        (fun d => (coordAt g s d).map (fun a => ndSliceSub a slc))),
    mask := (List.range (2 ^ g.rank)).map
      (fun s => (g.mask.getD s none).map (fun a => ndSliceSub a slc)),
    area := (List.range (2 ^ g.rank)).map
      (fun s => (g.area.getD s none).map (fun a => ndSliceSub a slc)),
    upper_bounds := (List.range (2 ^ g.rank)).map
      (fun s => ((coordAt g s 0).map (fun a => ndSliceSub a slc)).map (fun a => a.shape)) }

/-- `Grid.__getitem__`: slicing is refused outright under more than one
parallel worker; otherwise a sliced shallow copy is produced.  The first
component is the post-state of `self` (the parent grid), the second the
result. -/
def gridGetitem (g : Grid) (pet_count : Nat) (slc : List (Nat × Nat)) :
    Grid × Except GridError Grid :=
  if pet_count > 1 then (g, .error .SerialMethod)
  else (g, .ok (sliceSerial g slc))

/-- The keyword arguments of `Grid.__init__` (defaults as in the source:
`num_peri_dims` defaults to `0`, everything else to `None`). -/
structure GridArgs where
  max_index : Option (List Int) := none
  num_peri_dims : Option Nat := some 0
  periodic_dim : Option Int := none
  pole_dim : Option Int := none
  coord_sys : Option Int := none
  coord_typekind : Option TypeKind := none
  staggerloc : Option (List Nat) := none
  filename : Option String := none
  filetype : Option FileFormat := none
  reg_decomp : Option (List Int) := none
  decompflag : Option Int := none
  is_sphere : Option Bool := none
  add_corner_stagger : Option Bool := none
  add_user_area : Option Bool := none
  add_mask : Option Bool := none
  varname : Option String := none
  coord_names : Option (List String) := none

/-- The Grid state right after the creation branch of `__init__`: shadow
arrays sized `2 ** rank`, empty coordinate and item slots, `_finalized` not
yet set. -/
def grid0 (mi : List Int) (rnk nd npd : Nat) (pd pld csys : Option Int)
    (tk : Option TypeKind) : Grid :=
  { max_index := mi, rank := rnk, ndims := nd,
    typekind := tk.getD TypeKind.R8, areatype := TypeKind.R8,
    num_peri_dims := npd, periodic_dim := pd, pole_dim := pld, coord_sys := csys,
    staggerloc := List.replicate (2 ^ rnk) false,
    lower_bounds := List.replicate (2 ^ rnk) none,
    upper_bounds := List.replicate (2 ^ rnk) none,
    size := List.replicate (2 ^ rnk) none,
    coords := List.replicate (2 ^ rnk) (List.replicate rnk none),
    mask := List.replicate (2 ^ rnk) none,
    area := List.replicate (2 ^ rnk) none,
    has_corners := false,
    finalized := none }

/-- The `if staggerloc is not None: self.add_coords(...)` step of `__init__`:
run `add_coords` when a staggerloc was specified, discarding its return value
and warnings, and propagate a raised exception. -/
def initAddCoordsStep (g : Grid) (env : NativeEnv) (sl : Option (List Nat))
    (from_file : Bool) : Grid × Option GridError :=
  match sl with
  | none => (g, none)
  | some l =>
    match addCoords g env (some l) none from_file with
    | (g2, _, .error e) => (g2, some e)
    | (g2, _, .ok _) => (g2, none)

/-- The `if add_user_area: self.add_item(...)` / `if add_mask: ...` step of
`__init__`: run `add_item` at CENTER when the flag is set, discarding its
return value, and propagate a raised exception. -/
def initAddItemStep (g : Grid) (env : NativeEnv) (item : GridItem)
    (flag : Option Bool) (from_file : Bool) : Grid × Option GridError :=
  if flag.getD false then
    match addItem g env item (some [StaggerLoc.CENTER]) from_file with
    | (g2, _, .error e) => (g2, some e)
    | (g2, _, .ok _) => (g2, none)
  else (g, none)

/-- The common tail of `__init__`: add coordinates when a staggerloc is
specified, then the optional area and mask items, then set `_finalized =
False`. -/
def gridFinish (g0 : Grid) (env : NativeEnv) (sl : Option (List Nat))
    (add_user_area add_mask : Option Bool) (from_file : Bool) :
    Except GridError Grid :=
  match initAddCoordsStep g0 env sl from_file with
  | (_, some e) => .error e
  | (g1, none) =>
    match initAddItemStep g1 env GridItem.AREA add_user_area from_file with
    | (_, some e) => .error e
    | (g2, none) =>
      match initAddItemStep g2 env GridItem.MASK add_mask from_file with
      | (_, some e) => .error e
      | (g3, none) => .ok { g3 with finalized := some false }

/-- `Grid.__init__`.  The second component counts the native grid-creation
calls performed (`ESMP_GridCreateNoPeriDim`, `ESMP_GridCreate1PeriDim`,
`ESMP_GridCreateFromFile`).  Warnings about creation-mode-irrelevant arguments
have no state effect and are not tracked here. -/
def gridInit (a : GridArgs) (env : NativeEnv) : Except GridError Grid × Nat :=
  match a.max_index with
  | some mi =>
    let npd := a.num_peri_dims.getD 0
    let rnk := mi.length
    if npd = 0 then
      (gridFinish (grid0 mi rnk rnk npd a.periodic_dim a.pole_dim a.coord_sys a.coord_typekind)
        env a.staggerloc a.add_user_area a.add_mask false, 1)
    else if npd = 1 then
      let pd := match a.periodic_dim with
        | none => (some (0 : Int), some (1 : Int))
        | some p => (some p, a.pole_dim)
      (gridFinish (grid0 mi rnk rnk npd pd.1 pd.2 a.coord_sys a.coord_typekind)
        env a.staggerloc a.add_user_area a.add_mask false, 1)
    else (.error .TypeErrorNumPeriDims, 0)
  | none =>
    match a.filename, a.filetype with
    | some fn, some ft =>
      if ¬ ft = FileFormat.SCRIP ∧ ¬ ft = FileFormat.GRIDSPEC then
        (.error .GridArgumentError, 0)
      else
        let rmi : Nat × Nat × List Int :=
          match ft with
          | FileFormat.SCRIP =>
            let r := env.scripInq fn
            (r.1, r.1, r.2)
          | _ => env.gridspecInq fn
        let sl : List Nat :=
          if a.add_corner_stagger.getD false then [StaggerLoc.CENTER, StaggerLoc.CORNER]
          else [StaggerLoc.CENTER]
        let npd : Nat × Option Int :=
          if a.is_sphere = some false then (0, a.periodic_dim) else (1, some 0)
        (gridFinish
          (grid0 rmi.2.2 rmi.1 rmi.2.1 npd.1 npd.2 a.pole_dim a.coord_sys a.coord_typekind)
          env (some sl) a.add_user_area a.add_mask true, 1)
    | _, _ => (.error .GridArgumentError, 0)

/-- A concrete native environment used to instantiate theorems. -/
def env0 : NativeEnv :=
  { coordBounds := fun _ => some ([0, 0], [4, 4]),
    coordPtr := fun _ _ => List.replicate 16 7,
    itemPtr := fun _ _ => List.replicate 16 5,
    scripInq := fun _ => (2, [4, 4]),
    gridspecInq := fun _ => (2, 2, [4, 4]) }

/-- A concrete freshly constructed 4x4 in-memory grid state (no stagger
populated yet). -/
def gEx : Grid :=
  { max_index := [4, 4], rank := 2, ndims := 2, typekind := TypeKind.R8,
    areatype := TypeKind.R8, num_peri_dims := 0, periodic_dim := none,
    pole_dim := none, coord_sys := none,
    staggerloc := List.replicate 4 false,
    lower_bounds := List.replicate 4 none,
    upper_bounds := List.replicate 4 none,
    size := List.replicate 4 none,
    coords := List.replicate 4 (List.replicate 2 none),
    mask := List.replicate 4 none,
    area := List.replicate 4 none,
    has_corners := false, finalized := some false }

/-- A variant of `gEx` whose CENTER coordinates are already populated. -/
def gEx3 : Grid :=
  { gEx with
    staggerloc := [true, false, false, false],
    lower_bounds := [some [0, 0], none, none, none],
    upper_bounds := [some [4, 4], none, none, none],
    size := [some [4, 4], none, none, none],
    coords := [[some (npZeros [4, 4]), some (npZeros [4, 4])],
      [none, none], [none, none], [none, none]] }

/-- A variant of `gEx` whose CENTER mask item is already linked (the area
item is still unallocated, as after a single `add_item(MASK, CENTER)`). -/
def gEx4m : Grid :=
  { gEx with mask := [some (npZeros [4, 4]), none, none, none] }

/-- A variant of `gEx` whose CENTER area item is already linked (the mask
item is still unallocated, as after a single `add_item(AREA, CENTER)`). -/
def gEx4a : Grid :=
  { gEx with area := [some (npZeros [4, 4]), none, none, none] }

/-- A grid whose CENTER bounds are cached as lower `[0, 1]`, upper `[4, 5]`,
size `[4, 4]`. -/
def gC8 : Grid :=
  { gEx with
    staggerloc := [true, false, false, false],
    lower_bounds := [some [0, 1], none, none, none],
    upper_bounds := [some [4, 5], none, none, none],
    size := [some [4, 4], none, none, none],
    coords := [[some (npZeros [4, 4]), some (npZeros [4, 4])],
      [none, none], [none, none], [none, none]] }

/-- A native environment whose CENTER lower bound has drifted to `[1, 0]`
(the cached value in `gC8` is `[0, 1]`). -/
def envC8 : NativeEnv :=
  { env0 with coordBounds := fun s => if s = 0 then some ([1, 0], [4, 5]) else none }

theorem getD_set_self {α : Type} (l : List α) (i : Nat) (a d : α) (h : i < l.length) :
    (l.set i a).getD i d = a := by
  rw [List.getD_eq_getElem _ _ (by simpa using h)]
  simp [List.getElem_set]

theorem getD_set_ne {α : Type} (l : List α) (i j : Nat) (a d : α) (h : ¬ i = j) :
    (l.set i a).getD j d = l.getD j d := by
  by_cases hj : j < l.length
  · rw [List.getD_eq_getElem _ _ (by simpa using hj), List.getD_eq_getElem _ _ hj]
    simp [List.getElem_set, h]
  · rw [List.getD_eq_default _ _ (by simpa using Nat.le_of_not_lt hj),
      List.getD_eq_default _ _ (Nat.le_of_not_lt hj)]

theorem getD_replicate_lt {α : Type} (n i : Nat) (a d : α) (h : i < n) :
    (List.replicate n a).getD i d = a := by
  rw [List.getD_eq_getElem _ _ (by simpa using h)]
  simp

/-- C1: constructing a Grid with `max_index = None` and at least one of
`filename`, `filetype` equal to `None` raises `GridArgumentError`, and no
native grid-creation call is made (the count is 0). -/
theorem C1_missing_args_fails (a : GridArgs) (env : NativeEnv)
    (hmi : a.max_index = none) (hf : a.filename = none ∨ a.filetype = none) :
    gridInit a env = (.error .GridArgumentError, 0) := by
  cases hfn : a.filename <;> cases hft : a.filetype <;> simp_all [gridInit]

/-- Witness for C1 at the all-defaults argument record. -/
theorem C1_missing_args_fails_witness :
    gridInit { } env0 = (.error .GridArgumentError, 0) :=
  C1_missing_args_fails { } env0 rfl (Or.inl rfl)

/-- C4: when the mask item is already linked at a single stagger location
(regardless of the area item), a second `add_item(MASK, s)` fails with
`GridItemAlreadyLinked`, the state of the grid is returned unchanged, and no
native item allocation is performed (the count is 0); symmetrically, when the
area item is already linked (regardless of the mask item), `add_item(AREA, s)`
fails the same way. -/
theorem C4_item_relink_fails (g : Grid) (env : NativeEnv) (s : Nat) (ff : Bool) :
    ((g.mask.getD s none).isSome →
      addItem g env GridItem.MASK (some [s]) ff
        = (g, 0, .error .GridItemAlreadyLinked)) ∧
    ((g.area.getD s none).isSome →
      addItem g env GridItem.AREA (some [s]) ff
        = (g, 0, .error .GridItemAlreadyLinked)) := by
  constructor <;> intro h <;> simp_all [addItem, addItemLoop]

/-- Witness for C4 at the canonical double-add scenarios: a grid with only
the CENTER mask linked (area still unallocated), and a grid with only the
CENTER area linked (mask still unallocated). -/
theorem C4_item_relink_fails_witness :
    addItem gEx4m env0 GridItem.MASK (some [StaggerLoc.CENTER]) false
      = (gEx4m, 0, .error .GridItemAlreadyLinked) ∧
    addItem gEx4a env0 GridItem.AREA (some [StaggerLoc.CENTER]) false
      = (gEx4a, 0, .error .GridItemAlreadyLinked) :=
  ⟨(C4_item_relink_fails gEx4m env0 StaggerLoc.CENTER false).1 (by decide),
   (C4_item_relink_fails gEx4a env0 StaggerLoc.CENTER false).2 (by decide)⟩

/-- C6: slicing a Grid while more than one parallel worker is running fails
immediately with `SerialMethod`, and the parent grid state is returned
unmodified. -/
theorem C6_parallel_slice_fails (g : Grid) (pc : Nat) (slc : List (Nat × Nat))
    (h : pc > 1) :
    gridGetitem g pc slc = (g, .error .SerialMethod) := by
  simp [gridGetitem, h]

/-- Witness for C6 with two workers. -/
theorem C6_parallel_slice_fails_witness :
    gridGetitem gEx 2 [(1, 2), (1, 2)] = (gEx, .error .SerialMethod) :=
  C6_parallel_slice_fails gEx 2 [(1, 2), (1, 2)] (by decide)

/-- C7: `destroy` is idempotent.  Destroying twice never invokes the native
destroy call twice; a grid with `finalized = False` transitions to
`finalized = True` with exactly one native call and stays there; a grid
lacking the finalization flag (or a shallow copy, which is born finalized) is
left untouched with no native call. -/
theorem C7_destroy_idempotent (g : Grid) :
    ¬ ((gridDestroy g).2 = true ∧ (gridDestroy (gridDestroy g).1).2 = true) ∧
    gridDestroy { g with finalized := some false }
      = ({ g with finalized := some true }, true) ∧
    gridDestroy { g with finalized := some true }
      = ({ g with finalized := some true }, false) ∧
    gridDestroy { g with finalized := none } = ({ g with finalized := none }, false) ∧
    gridDestroy (gridCopy g) = (gridCopy g, false) := by
  rcases hf : g.finalized with - | b
  · simp [gridDestroy, gridCopy, hf]
  · cases b <;> simp [gridDestroy, gridCopy, hf]

/-- C8 (code bug): with CENTER bounds cached as lower `[0, 1]`, upper
`[4, 5]`, size `[4, 4]`, a re-verification against a native side whose lower
bound has drifted to `[1, 0]` passes all three assertions and returns the
grid unchanged: the source compares `cached.all() == fresh.all()` (aggregate
truthiness) instead of elementwise equality, so the drift goes undetected. -/
theorem C8_drift_not_detected :
    verifyGridBounds gC8 envC8 StaggerLoc.CENTER = .ok gC8 ∧
    gC8.lower_bounds.getD StaggerLoc.CENTER none = some [0, 1] ∧
    envC8.coordBounds StaggerLoc.CENTER = some ([1, 0], [4, 5]) ∧
    ¬ ([0, 1] : List Int) = [1, 0] := by
  refine ⟨rfl, by decide, by decide, by decide⟩

/-- C3: calling `add_coords` at a stagger location whose coordinates are
already populated emits exactly the already-added warning and is a no-op:
the grid state (coordinate views, their contents, and the staggerloc flags)
is returned unchanged and the value returned to the caller is the existing
view. -/
theorem C3_readd_coords_noop (g : Grid) (env : NativeEnv) (s : Nat)
    (cd : Option Nat) (ff : Bool) (h : (coordAt g s 0).isSome) :
    addCoords g env (some [s]) cd ff
      = (g, [coordWarn],
          .ok (match cd with | some d => coordAt g s d | none => none)) := by
  cases cd <;> simp [addCoords, addCoordsLoop, h]

/-- Witness for C3 at a concrete grid with populated CENTER coordinates. -/
theorem C3_readd_coords_noop_witness :
    addCoords gEx3 env0 (some [StaggerLoc.CENTER]) (some 0) false
      = (gEx3, [coordWarn], .ok (coordAt gEx3 StaggerLoc.CENTER 0)) :=
  C3_readd_coords_noop gEx3 env0 StaggerLoc.CENTER (some 0) false (by decide)

theorem verify_ok_fields (g : Grid) (env : NativeEnv) (s : Nat) (g1 : Grid)
    (h : verifyGridBounds g env s = .ok g1) :
    g1.rank = g.rank ∧ g1.ndims = g.ndims ∧ g1.staggerloc = g.staggerloc ∧
    g1.coords = g.coords ∧ g1.mask = g.mask ∧ g1.area = g.area ∧
    g1.periodic_dim = g.periodic_dim ∧ g1.pole_dim = g.pole_dim ∧
    g1.finalized = g.finalized ∧
    g1.lower_bounds.length = g.lower_bounds.length ∧
    g1.upper_bounds.length = g.upper_bounds.length ∧
    g1.size.length = g.size.length := by
  unfold verifyGridBounds at h
  repeat' split at h
  all_goals cases h
  all_goals refine ⟨rfl, rfl, rfl, rfl, rfl, rfl, rfl, rfl, rfl, ?_, ?_, ?_⟩ <;> simp

theorem cornerFlag_fields (g : Grid) (s : Nat) :
    (cornerFlag g s).rank = g.rank ∧ (cornerFlag g s).ndims = g.ndims ∧
    (cornerFlag g s).staggerloc = g.staggerloc ∧
    (cornerFlag g s).coords = g.coords ∧
    (cornerFlag g s).mask = g.mask ∧ (cornerFlag g s).area = g.area ∧
    (cornerFlag g s).periodic_dim = g.periodic_dim ∧
    (cornerFlag g s).pole_dim = g.pole_dim ∧
    (cornerFlag g s).finalized = g.finalized ∧
    (cornerFlag g s).lower_bounds = g.lower_bounds ∧
    (cornerFlag g s).upper_bounds = g.upper_bounds ∧
    (cornerFlag g s).size = g.size := by
  unfold cornerFlag
  split <;> exact ⟨rfl, rfl, rfl, rfl, rfl, rfl, rfl, rfl, rfl, rfl, rfl, rfl⟩

theorem setCoord_coords_len (g : Grid) (s d : Nat) (v : Option NdArray) :
    (setCoord g s d v).coords.length = g.coords.length ∧
    (∀ t, ((setCoord g s d v).coords.getD t []).length
      = (g.coords.getD t []).length) := by
  refine ⟨by simp [setCoord], fun t => ?_⟩
  unfold setCoord
  by_cases hst : s = t
  · subst hst
    by_cases hs : s < g.coords.length
    · rw [getD_set_self _ _ _ _ hs]; simp
    · rw [List.set_eq_of_length_le (Nat.le_of_not_lt hs)]
  · simp only []
    rw [getD_set_ne _ _ _ _ _ hst]

theorem linkCB_fields (g : Grid) (env : NativeEnv) (d s : Nat) :
    (linkCoordBuffer g env d s).1.rank = g.rank ∧
    (linkCoordBuffer g env d s).1.ndims = g.ndims ∧
    (linkCoordBuffer g env d s).1.staggerloc = g.staggerloc ∧
    (linkCoordBuffer g env d s).1.mask = g.mask ∧
    (linkCoordBuffer g env d s).1.area = g.area ∧
    (linkCoordBuffer g env d s).1.periodic_dim = g.periodic_dim ∧
    (linkCoordBuffer g env d s).1.pole_dim = g.pole_dim ∧
    (linkCoordBuffer g env d s).1.finalized = g.finalized ∧
    (linkCoordBuffer g env d s).1.lower_bounds = g.lower_bounds ∧
    (linkCoordBuffer g env d s).1.upper_bounds = g.upper_bounds ∧
    (linkCoordBuffer g env d s).1.size = g.size ∧
    (linkCoordBuffer g env d s).1.coords.length = g.coords.length ∧
    (∀ t, ((linkCoordBuffer g env d s).1.coords.getD t []).length
      = (g.coords.getD t []).length) := by
  unfold linkCoordBuffer
  rcases env.coordBounds s with - | ⟨lb, ub⟩
  · exact ⟨rfl, rfl, rfl, rfl, rfl, rfl, rfl, rfl, rfl, rfl, rfl, rfl, fun t => rfl⟩
  · simp only []
    have hc := cornerFlag_fields
      (setCoord g s d (some (ndarray_from_esmf (env.coordPtr d s) (zipSub ub lb)))) s
    have hs := setCoord_coords_len g s d
      (some (ndarray_from_esmf (env.coordPtr d s) (zipSub ub lb)))
    refine ⟨hc.1, hc.2.1, hc.2.2.1, ?_, ?_, ?_, ?_, ?_, ?_, ?_, ?_, ?_, ?_⟩ <;>
      simp_all [setCoord]

theorem coordAt_setCoord_self (g : Grid) (s d : Nat) (v : Option NdArray)
    (hs : s < g.coords.length) (hd : d < (g.coords.getD s []).length) :
    coordAt (setCoord g s d v) s d = v := by
  unfold coordAt setCoord
  simp only []
  rw [getD_set_self _ _ _ _ (by simpa using hs), getD_set_self _ _ _ _ hd]

theorem coordAt_setCoord_ne (g : Grid) (s d s2 d2 : Nat) (v : Option NdArray)
    (h : ¬ (s = s2 ∧ d = d2)) :
    coordAt (setCoord g s d v) s2 d2 = coordAt g s2 d2 := by
  unfold coordAt setCoord
  simp only []
  by_cases hs : s = s2
  · subst hs
    have hd : ¬ d = d2 := fun hd => h ⟨rfl, hd⟩
    by_cases hlen : s < g.coords.length
    · rw [getD_set_self _ _ _ _ hlen, getD_set_ne _ _ _ _ _ hd]
    · rw [List.set_eq_of_length_le (Nat.le_of_not_lt hlen)]
  · rw [getD_set_ne _ _ _ _ _ hs]

theorem coordAt_cornerFlag (g : Grid) (s2 s d : Nat) :
    coordAt (cornerFlag g s2) s d = coordAt g s d := by
  unfold coordAt
  rw [(cornerFlag_fields g s2).2.2.2.1]

theorem coordAt_linkCB_ne (g : Grid) (env : NativeEnv) (k s d : Nat)
    (lb ub : List Int) (hd : ¬ k = d) (henv : env.coordBounds s = some (lb, ub)) :
    coordAt (linkCoordBuffer g env k s).1 s d = coordAt g s d := by
  unfold linkCoordBuffer
  rw [henv]
  simp only []
  rw [coordAt_cornerFlag, coordAt_setCoord_ne]
  exact fun p => hd p.2

theorem coordAt_linkCB_self (g : Grid) (env : NativeEnv) (k s : Nat)
    (lb ub : List Int) (henv : env.coordBounds s = some (lb, ub))
    (hs : s < g.coords.length) (hk : k < (g.coords.getD s []).length) :
    (coordAt (linkCoordBuffer g env k s).1 s k).isSome := by
  unfold linkCoordBuffer
  rw [henv]
  simp only []
  rw [coordAt_cornerFlag, coordAt_setCoord_self _ _ _ _ hs hk]
  rfl

theorem linkLoop_fields (g : Grid) (env : NativeEnv) (s : Nat) :
    ∀ n,
    (linkCoordLoop g env s n).1.rank = g.rank ∧
    (linkCoordLoop g env s n).1.ndims = g.ndims ∧
    (linkCoordLoop g env s n).1.staggerloc = g.staggerloc ∧
    (linkCoordLoop g env s n).1.mask = g.mask ∧
    (linkCoordLoop g env s n).1.area = g.area ∧
    (linkCoordLoop g env s n).1.periodic_dim = g.periodic_dim ∧
    (linkCoordLoop g env s n).1.pole_dim = g.pole_dim ∧
    (linkCoordLoop g env s n).1.finalized = g.finalized ∧
    (linkCoordLoop g env s n).1.lower_bounds = g.lower_bounds ∧
    (linkCoordLoop g env s n).1.upper_bounds = g.upper_bounds ∧
    (linkCoordLoop g env s n).1.size = g.size ∧
    (linkCoordLoop g env s n).1.coords.length = g.coords.length ∧
    (∀ t, ((linkCoordLoop g env s n).1.coords.getD t []).length
      = (g.coords.getD t []).length) := by
  intro n
  induction n with
  | zero =>
    exact ⟨rfl, rfl, rfl, rfl, rfl, rfl, rfl, rfl, rfl, rfl, rfl, rfl, fun t => rfl⟩
  | succ k ih =>
    obtain ⟨i1, i2, i3, i4, i5, i6, i7, i8, i9, i10, i11, i12, i13⟩ := ih
    unfold linkCoordLoop
    rcases hk : linkCoordLoop g env s k with ⟨g1, e⟩
    rw [hk] at i1 i2 i3 i4 i5 i6 i7 i8 i9 i10 i11 i12 i13
    cases e with
    | some e2 => exact ⟨i1, i2, i3, i4, i5, i6, i7, i8, i9, i10, i11, i12, i13⟩
    | none =>
      obtain ⟨l1, l2, l3, l4, l5, l6, l7, l8, l9, l10, l11, l12, l13⟩ :=
        linkCB_fields g1 env k s
      exact ⟨l1.trans i1, l2.trans i2, l3.trans i3, l4.trans i4, l5.trans i5,
        l6.trans i6, l7.trans i7, l8.trans i8, l9.trans i9, l10.trans i10,
        l11.trans i11, l12.trans i12, fun t => (l13 t).trans (i13 t)⟩

theorem linkLoop_ok (env : NativeEnv) (s : Nat) (lb ub : List Int)
    (henv : env.coordBounds s = some (lb, ub)) :
    ∀ (n : Nat) (g : Grid), (linkCoordLoop g env s n).2 = none := by
  intro n
  induction n with
  | zero => intro g; rfl
  | succ k ih =>
    intro g
    unfold linkCoordLoop
    rcases hk : linkCoordLoop g env s k with ⟨g1, e⟩
    have h2 := ih g
    rw [hk] at h2
    cases e with
    | some e2 => simp at h2
    | none => simp [linkCoordBuffer, henv]

theorem linkLoop_coordAt (env : NativeEnv) (s : Nat) (lb ub : List Int)
    (henv : env.coordBounds s = some (lb, ub)) :
    ∀ (n : Nat) (g : Grid), s < g.coords.length →
      (∀ d, d < n → d < (g.coords.getD s []).length) →
      ∀ d, d < n → (coordAt (linkCoordLoop g env s n).1 s d).isSome := by
  intro n
  induction n with
  | zero => intro g _ _ d hd; exact absurd hd (Nat.not_lt_zero d)
  | succ k ih =>
    intro g hs hrow d hd
    unfold linkCoordLoop
    rcases hk : linkCoordLoop g env s k with ⟨g1, e⟩
    have h2 := linkLoop_ok env s lb ub henv k g
    rw [hk] at h2
    cases e with
    | some e2 => simp at h2
    | none =>
      obtain ⟨-, -, -, -, -, -, -, -, -, -, -, f12, f13⟩ := linkLoop_fields g env s k
      rw [hk] at f12 f13
      rcases Nat.lt_succ_iff_lt_or_eq.mp hd with hdk | hdk
      · rw [coordAt_linkCB_ne g1 env k s d lb ub (fun he => Nat.lt_irrefl d (he ▸ hdk))
          henv]
        have := ih g hs (fun d2 hd2 => hrow d2 (Nat.lt_succ_of_lt hd2)) d hdk
        rw [hk] at this
        exact this
      · subst hdk
        exact coordAt_linkCB_self g1 env d s lb ub henv
          (by rw [f12]; exact hs) (by rw [f13 s]; exact hrow d hd)

theorem coordAt_modify_isSome (g : Grid) (s d d2 : Nat) (f : NdArray → NdArray)
    (hs : s < g.coords.length) (hrow : d < (g.coords.getD s []).length) :
    (coordAt (modifyCoord g s d f) s d2).isSome = (coordAt g s d2).isSome := by
  unfold modifyCoord
  by_cases hd : d = d2
  · subst hd
    rw [coordAt_setCoord_self _ _ _ _ hs hrow]
    simp
  · rw [coordAt_setCoord_ne _ _ _ _ _ _ (fun p => hd p.2)]

theorem modify_coords_len (g : Grid) (s d : Nat) (f : NdArray → NdArray) :
    (modifyCoord g s d f).coords.length = g.coords.length ∧
    (∀ t, ((modifyCoord g s d f).coords.getD t []).length
      = (g.coords.getD t []).length) :=
  setCoord_coords_len g s d _

theorem allocateCoords_fresh (g : Grid) (env : NativeEnv) (s : Nat) (lb ub : List Int)
    (hlb : g.lower_bounds.getD s none = none)
    (henv : env.coordBounds s = some (lb, ub))
    (hnd : g.ndims = g.rank)
    (hrk : g.rank = 2 ∨ g.rank = 3)
    (hs1 : s < g.coords.length)
    (hrow : (g.coords.getD s []).length = g.rank)
    (hs2 : s < g.lower_bounds.length) (hs3 : s < g.upper_bounds.length)
    (hs4 : s < g.size.length) :
    (allocateCoords g env s false).2 = none ∧
    (allocateCoords g env s false).1.staggerloc = g.staggerloc ∧
    (allocateCoords g env s false).1.rank = g.rank ∧
    (allocateCoords g env s false).1.lower_bounds.getD s none = some lb ∧
    (allocateCoords g env s false).1.upper_bounds.getD s none = some ub ∧
    (allocateCoords g env s false).1.size.getD s none = some (zipSub ub lb) ∧
    (∀ d, d < g.rank → (coordAt (allocateCoords g env s false).1 s d).isSome) ∧
    (allocateCoords g env s false).1.periodic_dim = g.periodic_dim ∧
    (allocateCoords g env s false).1.pole_dim = g.pole_dim := by
  have hv : verifyGridBounds g env s = .ok
      { g with lower_bounds := g.lower_bounds.set s (some lb),
               upper_bounds := g.upper_bounds.set s (some ub),
               size := g.size.set s (some (zipSub ub lb)) } := by
    unfold verifyGridBounds
    rw [hlb, henv]
  set gv : Grid :=
    { g with lower_bounds := g.lower_bounds.set s (some lb),
             upper_bounds := g.upper_bounds.set s (some ub),
             size := g.size.set s (some (zipSub ub lb)) } with hgv
  unfold allocateCoords
  rw [hv]
  dsimp only
  set z : NdArray := npZeros ((gv.size.getD s none).getD []) with hz
  set G2 : Grid := setCoord (setCoord gv s 0 (some z)) s 1 (some z) with hG2
  have hG2rank : G2.rank = g.rank := by simp [hG2, hgv, setCoord]
  have hG2nd : G2.ndims = g.ndims := by simp [hG2, hgv, setCoord]
  have hG2stag : G2.staggerloc = g.staggerloc := by simp [hG2, hgv, setCoord]
  have hG2lower : G2.lower_bounds = g.lower_bounds.set s (some lb) := by
    simp [hG2, hgv, setCoord]
  have hG2upper : G2.upper_bounds = g.upper_bounds.set s (some ub) := by
    simp [hG2, hgv, setCoord]
  have hG2size : G2.size = g.size.set s (some (zipSub ub lb)) := by
    simp [hG2, hgv, setCoord]
  have hG2pp : G2.periodic_dim = g.periodic_dim ∧ G2.pole_dim = g.pole_dim := by
    constructor <;> simp [hG2, hgv, setCoord]
  have hG2clen : G2.coords.length = g.coords.length := by
    have a1 := setCoord_coords_len gv s 0 (some z)
    have a2 := setCoord_coords_len (setCoord gv s 0 (some z)) s 1 (some z)
    rw [hG2, a2.1, a1.1, hgv]
  have hG2row : (G2.coords.getD s []).length = g.rank := by
    have a1 := setCoord_coords_len gv s 0 (some z)
    have a2 := setCoord_coords_len (setCoord gv s 0 (some z)) s 1 (some z)
    rw [hG2, a2.2 s, a1.2 s, hgv]
    exact hrow
  rcases hrk with hr | hr
  · have h3 : (if G2.rank = 3 then setCoord G2 s 2 (some z) else G2) = G2 := by
      rw [hG2rank, hr]
      simp
    rw [h3, if_pos (Or.inl (hG2nd.trans (hnd.trans hG2rank.symm)))]
    obtain ⟨f1, f2, f3, f4, f5, f6, f7, f8, f9, f10, f11, f12, f13⟩ :=
      linkLoop_fields G2 env s G2.rank
    have hl2 := linkLoop_ok env s lb ub henv G2.rank G2
    have hca := linkLoop_coordAt env s lb ub henv G2.rank G2
      (by rw [hG2clen]; exact hs1)
      (by intro d hd; rw [hG2row]; rw [hG2rank] at hd; exact hd)
    rcases hloop : linkCoordLoop G2 env s G2.rank with ⟨g4, e4⟩
    rw [hloop] at hl2 f1 f2 f3 f4 f5 f6 f7 f8 f9 f10 f11 f12 f13 hca
    cases e4 with
    | some e5 => simp at hl2
    | none =>
      dsimp only
      have hrk4 : g4.rank = g.rank := by rw [f1, hG2rank]
      have m1 := modify_coords_len g4 s 0 (fun a => fillAll a 0)
      have m2 := modify_coords_len (modifyCoord g4 s 0 (fun a => fillAll a 0)) s 1
        (fun a => fillAll a 0)
      have hg6r : (modifyCoord (modifyCoord g4 s 0 (fun a => fillAll a 0)) s 1
          (fun a => fillAll a 0)).rank = g.rank := by
        simp [modifyCoord, setCoord, hrk4]
      rw [if_neg Bool.false_ne_true, if_neg (by rw [hg6r, hr]; omega)]
      refine ⟨rfl, ?_, ?_, ?_, ?_, ?_, ?_, ?_, ?_⟩
      · show (modifyCoord (modifyCoord g4 s 0 _) s 1 _).staggerloc = g.staggerloc
        have : (modifyCoord (modifyCoord g4 s 0 (fun a => fillAll a 0)) s 1
            (fun a => fillAll a 0)).staggerloc = g4.staggerloc := by
          simp [modifyCoord, setCoord]
        rw [this, f3, hG2stag]
      · show (modifyCoord (modifyCoord g4 s 0 _) s 1 _).rank = g.rank
        exact hg6r
      · have : (modifyCoord (modifyCoord g4 s 0 (fun a => fillAll a 0)) s 1
            (fun a => fillAll a 0)).lower_bounds = g4.lower_bounds := by
          simp [modifyCoord, setCoord]
        rw [this, f9, hG2lower, getD_set_self _ _ _ _ hs2]
      · have : (modifyCoord (modifyCoord g4 s 0 (fun a => fillAll a 0)) s 1
            (fun a => fillAll a 0)).upper_bounds = g4.upper_bounds := by
          simp [modifyCoord, setCoord]
        rw [this, f10, hG2upper, getD_set_self _ _ _ _ hs3]
      · have : (modifyCoord (modifyCoord g4 s 0 (fun a => fillAll a 0)) s 1
            (fun a => fillAll a 0)).size = g4.size := by
          simp [modifyCoord, setCoord]
        rw [this, f11, hG2size, getD_set_self _ _ _ _ hs4]
      · intro d hd
        have e1 : (coordAt (modifyCoord (modifyCoord g4 s 0 (fun a => fillAll a 0)) s 1
            (fun a => fillAll a 0)) s d).isSome
            = (coordAt (modifyCoord g4 s 0 (fun a => fillAll a 0)) s d).isSome := by
          refine coordAt_modify_isSome _ _ _ _ _ ?_ ?_
          · rw [m1.1, f12, hG2clen]; exact hs1
          · rw [m1.2 s, f13, hG2row]; omega
        have e2 : (coordAt (modifyCoord g4 s 0 (fun a => fillAll a 0)) s d).isSome
            = (coordAt g4 s d).isSome := by
          refine coordAt_modify_isSome _ _ _ _ _ ?_ ?_
          · rw [f12, hG2clen]; exact hs1
          · rw [f13, hG2row]; omega
        rw [e1, e2]
        exact hca d (by rw [hG2rank]; exact hd)
      · have : (modifyCoord (modifyCoord g4 s 0 (fun a => fillAll a 0)) s 1
            (fun a => fillAll a 0)).periodic_dim = g4.periodic_dim := by
          simp [modifyCoord, setCoord]
        rw [this, f6, hG2pp.1]
      · have : (modifyCoord (modifyCoord g4 s 0 (fun a => fillAll a 0)) s 1
            (fun a => fillAll a 0)).pole_dim = g4.pole_dim := by
          simp [modifyCoord, setCoord]
        rw [this, f7, hG2pp.2]
  · set G3 : Grid := setCoord G2 s 2 (some z) with hG3
    have h3 : (if G2.rank = 3 then setCoord G2 s 2 (some z) else G2) = G3 := by
      rw [hG2rank, hr, hG3]
      simp
    have hG3rank : G3.rank = g.rank := by
      rw [hG3]; simpa [setCoord] using hG2rank
    have hG3nd : G3.ndims = g.ndims := by
      rw [hG3]; simpa [setCoord] using hG2nd
    have hG3stag : G3.staggerloc = g.staggerloc := by
      rw [hG3]; simpa [setCoord] using hG2stag
    have hG3lower : G3.lower_bounds = g.lower_bounds.set s (some lb) := by
      rw [hG3]; simpa [setCoord] using hG2lower
    have hG3upper : G3.upper_bounds = g.upper_bounds.set s (some ub) := by
      rw [hG3]; simpa [setCoord] using hG2upper
    have hG3size : G3.size = g.size.set s (some (zipSub ub lb)) := by
      rw [hG3]; simpa [setCoord] using hG2size
    have hG3pp : G3.periodic_dim = g.periodic_dim ∧ G3.pole_dim = g.pole_dim := by
      constructor <;> (rw [hG3]; simp [setCoord]) <;> [exact hG2pp.1; exact hG2pp.2]
    have hG3clen : G3.coords.length = g.coords.length := by
      rw [hG3, (setCoord_coords_len G2 s 2 (some z)).1, hG2clen]
    have hG3row : (G3.coords.getD s []).length = g.rank := by
      rw [hG3, (setCoord_coords_len G2 s 2 (some z)).2 s, hG2row]
    rw [h3, if_pos (Or.inl (hG3nd.trans (hnd.trans hG3rank.symm)))]
    obtain ⟨f1, f2, f3, f4, f5, f6, f7, f8, f9, f10, f11, f12, f13⟩ :=
      linkLoop_fields G3 env s G3.rank
    have hl2 := linkLoop_ok env s lb ub henv G3.rank G3
    have hca := linkLoop_coordAt env s lb ub henv G3.rank G3
      (by rw [hG3clen]; exact hs1)
      (by intro d hd; rw [hG3row]; rw [hG3rank] at hd; exact hd)
    rcases hloop : linkCoordLoop G3 env s G3.rank with ⟨g4, e4⟩
    rw [hloop] at hl2 f1 f2 f3 f4 f5 f6 f7 f8 f9 f10 f11 f12 f13 hca
    cases e4 with
    | some e5 => simp at hl2
    | none =>
      dsimp only
      have hrk4 : g4.rank = g.rank := by rw [f1, hG3rank]
      have m1 := modify_coords_len g4 s 0 (fun a => fillAll a 0)
      have m2 := modify_coords_len (modifyCoord g4 s 0 (fun a => fillAll a 0)) s 1
        (fun a => fillAll a 0)
      have hg6r : (modifyCoord (modifyCoord g4 s 0 (fun a => fillAll a 0)) s 1
          (fun a => fillAll a 0)).rank = g.rank := by
        simp [modifyCoord, setCoord, hrk4]
      rw [if_neg Bool.false_ne_true, if_pos (by rw [hg6r, hr])]
      refine ⟨rfl, ?_, ?_, ?_, ?_, ?_, ?_, ?_, ?_⟩
      · have : (modifyCoord (modifyCoord (modifyCoord g4 s 0 (fun a => fillAll a 0)) s 1
            (fun a => fillAll a 0)) s 2 (fun a => fillAll a 0)).staggerloc
            = g4.staggerloc := by
          simp [modifyCoord, setCoord]
        rw [this, f3, hG3stag]
      · show (modifyCoord (modifyCoord (modifyCoord g4 s 0 _) s 1 _) s 2 _).rank = g.rank
        simp [modifyCoord, setCoord, hrk4]
      · have : (modifyCoord (modifyCoord (modifyCoord g4 s 0 (fun a => fillAll a 0)) s 1
            (fun a => fillAll a 0)) s 2 (fun a => fillAll a 0)).lower_bounds
            = g4.lower_bounds := by
          simp [modifyCoord, setCoord]
        rw [this, f9, hG3lower, getD_set_self _ _ _ _ hs2]
      · have : (modifyCoord (modifyCoord (modifyCoord g4 s 0 (fun a => fillAll a 0)) s 1
            (fun a => fillAll a 0)) s 2 (fun a => fillAll a 0)).upper_bounds
            = g4.upper_bounds := by
          simp [modifyCoord, setCoord]
        rw [this, f10, hG3upper, getD_set_self _ _ _ _ hs3]
      · have : (modifyCoord (modifyCoord (modifyCoord g4 s 0 (fun a => fillAll a 0)) s 1
            (fun a => fillAll a 0)) s 2 (fun a => fillAll a 0)).size = g4.size := by
          simp [modifyCoord, setCoord]
        rw [this, f11, hG3size, getD_set_self _ _ _ _ hs4]
      · intro d hd
        have e1 : (coordAt (modifyCoord (modifyCoord (modifyCoord g4 s 0
            (fun a => fillAll a 0)) s 1 (fun a => fillAll a 0)) s 2
            (fun a => fillAll a 0)) s d).isSome
            = (coordAt (modifyCoord (modifyCoord g4 s 0 (fun a => fillAll a 0)) s 1
              (fun a => fillAll a 0)) s d).isSome := by
          refine coordAt_modify_isSome _ _ _ _ _ ?_ ?_
          · rw [m2.1, m1.1, f12, hG3clen]; exact hs1
          · rw [m2.2 s, m1.2 s, f13, hG3row]; omega
        have e2 : (coordAt (modifyCoord (modifyCoord g4 s 0 (fun a => fillAll a 0)) s 1
            (fun a => fillAll a 0)) s d).isSome
            = (coordAt (modifyCoord g4 s 0 (fun a => fillAll a 0)) s d).isSome := by
          refine coordAt_modify_isSome _ _ _ _ _ ?_ ?_
          · rw [m1.1, f12, hG3clen]; exact hs1
          · rw [m1.2 s, f13, hG3row]; omega
        have e3 : (coordAt (modifyCoord g4 s 0 (fun a => fillAll a 0)) s d).isSome
            = (coordAt g4 s d).isSome := by
          refine coordAt_modify_isSome _ _ _ _ _ ?_ ?_
          · rw [f12, hG3clen]; exact hs1
          · rw [f13, hG3row]; omega
        rw [e1, e2, e3]
        exact hca d (by rw [hG3rank]; exact hd)
      · have : (modifyCoord (modifyCoord (modifyCoord g4 s 0 (fun a => fillAll a 0)) s 1
            (fun a => fillAll a 0)) s 2 (fun a => fillAll a 0)).periodic_dim
            = g4.periodic_dim := by
          simp [modifyCoord, setCoord]
        rw [this, f6, hG3pp.1]
      · have : (modifyCoord (modifyCoord (modifyCoord g4 s 0 (fun a => fillAll a 0)) s 1
            (fun a => fillAll a 0)) s 2 (fun a => fillAll a 0)).pole_dim
            = g4.pole_dim := by
          simp [modifyCoord, setCoord]
        rw [this, f7, hG3pp.2]

/-- C9: a successful fresh `add_coords` at a single stagger location, in the
standard case where the coordinate dimensionality equals the grid rank,
populates every coordinate dimension slot at that location, caches the lower
bounds, upper bounds and size there, and sets the staggerloc flag — the
allocation is all-dimensions-at-once, never partial. -/
theorem C9_addCoords_all_dims (g : Grid) (env : NativeEnv) (s : Nat) (lb ub : List Int)
    (hfresh : coordAt g s 0 = none)
    (hlb : g.lower_bounds.getD s none = none)
    (henv : env.coordBounds s = some (lb, ub))
    (hnd : g.ndims = g.rank)
    (hrk : g.rank = 2 ∨ g.rank = 3)
    (hs1 : s < g.coords.length)
    (hrow : (g.coords.getD s []).length = g.rank)
    (hs2 : s < g.lower_bounds.length) (hs3 : s < g.upper_bounds.length)
    (hs4 : s < g.size.length) (hs5 : s < g.staggerloc.length) :
    (addCoords g env (some [s]) none false).2.2 = .ok none ∧
    (addCoords g env (some [s]) none false).2.1 = [] ∧
    (∀ d, d < g.rank →
      (coordAt (addCoords g env (some [s]) none false).1 s d).isSome) ∧
    (addCoords g env (some [s]) none false).1.lower_bounds.getD s none = some lb ∧
    (addCoords g env (some [s]) none false).1.upper_bounds.getD s none = some ub ∧
    (addCoords g env (some [s]) none false).1.size.getD s none
      = some (zipSub ub lb) ∧
    (addCoords g env (some [s]) none false).1.staggerloc.getD s false = true := by
  obtain ⟨a1, a2, a3, a4, a5, a6, a7, a8, a9⟩ :=
    allocateCoords_fresh g env s lb ub hlb henv hnd hrk hs1 hrow hs2 hs3 hs4
  rcases halloc : allocateCoords g env s false with ⟨g1, e1⟩
  rw [halloc] at a1 a2 a3 a4 a5 a6 a7 a8 a9
  cases e1 with
  | some e2 => simp at a1
  | none =>
    have key : addCoords g env (some [s]) none false
        = ({ g1 with staggerloc := g1.staggerloc.set s true }, [], .ok none) := by
      simp [addCoords, addCoordsLoop, hfresh, halloc]
    rw [key]
    refine ⟨rfl, rfl, ?_, ?_, ?_, ?_, ?_⟩
    · intro d hd
      have hcc : coordAt { g1 with staggerloc := g1.staggerloc.set s true } s d
          = coordAt g1 s d := rfl
      rw [hcc]
      exact a7 d hd
    · exact a4
    · exact a5
    · exact a6
    · show (g1.staggerloc.set s true).getD s false = true
      rw [getD_set_self _ _ _ _ (by rw [a2]; exact hs5)]

/-- Witness for C9 at the fresh concrete grid `gEx` and CENTER. -/
theorem C9_addCoords_all_dims_witness :
    (addCoords gEx env0 (some [StaggerLoc.CENTER]) none false).2.2 = .ok none ∧
    (coordAt (addCoords gEx env0 (some [StaggerLoc.CENTER]) none false).1
      StaggerLoc.CENTER 0).isSome ∧
    (coordAt (addCoords gEx env0 (some [StaggerLoc.CENTER]) none false).1
      StaggerLoc.CENTER 1).isSome ∧
    (addCoords gEx env0 (some [StaggerLoc.CENTER]) none false).1.size.getD
      StaggerLoc.CENTER none = some (zipSub [4, 4] [0, 0]) ∧
    (addCoords gEx env0 (some [StaggerLoc.CENTER]) none false).1.staggerloc.getD
      StaggerLoc.CENTER false = true := by
  have h := C9_addCoords_all_dims gEx env0 StaggerLoc.CENTER [0, 0] [4, 4]
    (by decide) (by decide) rfl rfl (Or.inl rfl) (by decide) (by decide)
    (by decide) (by decide) (by decide) (by decide)
  exact ⟨h.1, h.2.2.1 0 (by decide), h.2.2.1 1 (by decide), h.2.2.2.2.2.1,
    h.2.2.2.2.2.2⟩

/-- C5: on a grid where the CENTER item slots are still empty and bounds are
not yet cached, `add_item(AREA, CENTER)` leaves `area[CENTER]` a buffer of
zeros whose shape equals `size[CENTER]`, and `add_item(MASK, CENTER)` leaves
`mask[CENTER]` filled with ones whose shape equals `size[CENTER]`; in both
cases the populated view is returned to the caller. -/
theorem C5_fresh_item_contents (g : Grid) (env : NativeEnv) (lb ub : List Int)
    (hm : g.mask.getD StaggerLoc.CENTER none = none)
    (ha : g.area.getD StaggerLoc.CENTER none = none)
    (hlb : g.lower_bounds.getD StaggerLoc.CENTER none = none)
    (henv : env.coordBounds StaggerLoc.CENTER = some (lb, ub))
    (h0m : 0 < g.mask.length) (h0a : 0 < g.area.length)
    (h0s : 0 < g.size.length) :
    ((addItem g env GridItem.AREA (some [StaggerLoc.CENTER]) false).1.area.getD
        StaggerLoc.CENTER none).map (fun a => a.shape)
      = (addItem g env GridItem.AREA (some [StaggerLoc.CENTER]) false).1.size.getD
        StaggerLoc.CENTER none ∧
    ((addItem g env GridItem.AREA (some [StaggerLoc.CENTER]) false).1.area.getD
        StaggerLoc.CENTER none).map (fun a => a.data.all (fun x => x == 0))
      = some true ∧
    (addItem g env GridItem.AREA (some [StaggerLoc.CENTER]) false).2.2
      = .ok ((addItem g env GridItem.AREA (some [StaggerLoc.CENTER]) false).1.area.getD
          StaggerLoc.CENTER none) ∧
    ((addItem g env GridItem.MASK (some [StaggerLoc.CENTER]) false).1.mask.getD
        StaggerLoc.CENTER none).map (fun a => a.shape)
      = (addItem g env GridItem.MASK (some [StaggerLoc.CENTER]) false).1.size.getD
        StaggerLoc.CENTER none ∧
    ((addItem g env GridItem.MASK (some [StaggerLoc.CENTER]) false).1.mask.getD
        StaggerLoc.CENTER none).map (fun a => a.data.all (fun x => x == 1))
      = some true ∧
    (addItem g env GridItem.MASK (some [StaggerLoc.CENTER]) false).2.2
      = .ok ((addItem g env GridItem.MASK (some [StaggerLoc.CENTER]) false).1.mask.getD
          StaggerLoc.CENTER none) := by
  have hv : verifyGridBounds g env StaggerLoc.CENTER = .ok
      { g with lower_bounds := g.lower_bounds.set StaggerLoc.CENTER (some lb),
               upper_bounds := g.upper_bounds.set StaggerLoc.CENTER (some ub),
               size := g.size.set StaggerLoc.CENTER (some (zipSub ub lb)) } := by
    unfold verifyGridBounds
    rw [hlb, henv]
  set gv : Grid :=
    { g with lower_bounds := g.lower_bounds.set StaggerLoc.CENTER (some lb),
             upper_bounds := g.upper_bounds.set StaggerLoc.CENTER (some ub),
             size := g.size.set StaggerLoc.CENTER (some (zipSub ub lb)) } with hgv
  have hsz : (gv.size.getD StaggerLoc.CENTER none).getD [] = zipSub ub lb := by
    rw [hgv]
    show ((g.size.set StaggerLoc.CENTER (some (zipSub ub lb))).getD
      StaggerLoc.CENTER none).getD [] = _
    rw [getD_set_self _ StaggerLoc.CENTER _ _ h0s]
    rfl
  have hallocA : allocateItems g env GridItem.AREA StaggerLoc.CENTER false
      = (modifyArea (setArea (setArea gv StaggerLoc.CENTER
          (some (npZeros (zipSub ub lb)))) StaggerLoc.CENTER
          (some (ndarray_from_esmf (env.itemPtr GridItem.AREA StaggerLoc.CENTER)
            (zipSub ub lb)))) StaggerLoc.CENTER (fun a => fillAll a 0), none) := by
    unfold allocateItems linkItemBuffer
    rw [hv]
    dsimp only
    rw [hsz, henv]
    dsimp only [setArea]
    rw [if_neg Bool.false_ne_true]
  have hallocM : allocateItems g env GridItem.MASK StaggerLoc.CENTER false
      = (modifyMask (setMask (setMask gv StaggerLoc.CENTER
          (some (npZeros (zipSub ub lb)))) StaggerLoc.CENTER
          (some (ndarray_from_esmf (env.itemPtr GridItem.MASK StaggerLoc.CENTER)
            (zipSub ub lb)))) StaggerLoc.CENTER (fun a => fillAll a 1), none) := by
    unfold allocateItems linkItemBuffer
    rw [hv]
    dsimp only
    rw [hsz, henv]
    dsimp only [setMask]
    rw [if_neg Bool.false_ne_true]
  have keyA : addItem g env GridItem.AREA (some [StaggerLoc.CENTER]) false
      = ((allocateItems g env GridItem.AREA StaggerLoc.CENTER false).1, 1,
        .ok ((allocateItems g env GridItem.AREA StaggerLoc.CENTER false).1.area.getD
          StaggerLoc.CENTER none)) := by
    have ha2 : g.area[StaggerLoc.CENTER]?.getD none = none := by simpa using ha
    simp [addItem, addItemLoop, ha2, hallocA]
  have keyM : addItem g env GridItem.MASK (some [StaggerLoc.CENTER]) false
      = ((allocateItems g env GridItem.MASK StaggerLoc.CENTER false).1, 1,
        .ok ((allocateItems g env GridItem.MASK StaggerLoc.CENTER false).1.mask.getD
          StaggerLoc.CENTER none)) := by
    have hm2 : g.mask[StaggerLoc.CENTER]?.getD none = none := by simpa using hm
    simp [addItem, addItemLoop, hm2, hallocM]
  rw [keyA, keyM, hallocA, hallocM]
  dsimp only
  have hlenA1 : StaggerLoc.CENTER
      < (g.area.set StaggerLoc.CENTER (some (npZeros (zipSub ub lb)))).length := by
    simpa [StaggerLoc.CENTER] using h0a
  have hlenM1 : StaggerLoc.CENTER
      < (g.mask.set StaggerLoc.CENTER (some (npZeros (zipSub ub lb)))).length := by
    simpa [StaggerLoc.CENTER] using h0m
  have hlenA2 : StaggerLoc.CENTER <
      ((g.area.set StaggerLoc.CENTER (some (npZeros (zipSub ub lb)))).set
        StaggerLoc.CENTER (some (ndarray_from_esmf
          (env.itemPtr GridItem.AREA StaggerLoc.CENTER) (zipSub ub lb)))).length := by
    simpa [StaggerLoc.CENTER] using h0a
  have hlenM2 : StaggerLoc.CENTER <
      ((g.mask.set StaggerLoc.CENTER (some (npZeros (zipSub ub lb)))).set
        StaggerLoc.CENTER (some (ndarray_from_esmf
          (env.itemPtr GridItem.MASK StaggerLoc.CENTER) (zipSub ub lb)))).length := by
    simpa [StaggerLoc.CENTER] using h0m
  have hareaview : ((setArea (setArea gv StaggerLoc.CENTER
      (some (npZeros (zipSub ub lb)))) StaggerLoc.CENTER
      (some (ndarray_from_esmf (env.itemPtr GridItem.AREA StaggerLoc.CENTER)
        (zipSub ub lb)))).area.getD StaggerLoc.CENTER none)
      = some (ndarray_from_esmf (env.itemPtr GridItem.AREA StaggerLoc.CENTER)
          (zipSub ub lb)) := by
    unfold setArea
    dsimp only
    exact getD_set_self _ StaggerLoc.CENTER _ _ hlenA1
  have hmaskview : ((setMask (setMask gv StaggerLoc.CENTER
      (some (npZeros (zipSub ub lb)))) StaggerLoc.CENTER
      (some (ndarray_from_esmf (env.itemPtr GridItem.MASK StaggerLoc.CENTER)
        (zipSub ub lb)))).mask.getD StaggerLoc.CENTER none)
      = some (ndarray_from_esmf (env.itemPtr GridItem.MASK StaggerLoc.CENTER)
          (zipSub ub lb)) := by
    unfold setMask
    dsimp only
    exact getD_set_self _ StaggerLoc.CENTER _ _ hlenM1
  refine ⟨?_, ?_, rfl, ?_, ?_, rfl⟩
  · unfold modifyArea
    rw [hareaview]
    unfold setArea
    dsimp only
    rw [getD_set_self _ StaggerLoc.CENTER _ _ hlenA2]
    simp [StaggerLoc.CENTER, fillAll, ndarray_from_esmf, List.getElem?_set_eq_of_lt, h0s]
  · unfold modifyArea
    rw [hareaview]
    unfold setArea
    dsimp only
    rw [getD_set_self _ StaggerLoc.CENTER _ _ hlenA2]
    simp [fillAll, ndarray_from_esmf, List.all_map]
  · unfold modifyMask
    rw [hmaskview]
    unfold setMask
    dsimp only
    rw [getD_set_self _ StaggerLoc.CENTER _ _ hlenM2]
    simp [StaggerLoc.CENTER, fillAll, ndarray_from_esmf, List.getElem?_set_eq_of_lt, h0s]
  · unfold modifyMask
    rw [hmaskview]
    unfold setMask
    dsimp only
    rw [getD_set_self _ StaggerLoc.CENTER _ _ hlenM2]
    simp [fillAll, ndarray_from_esmf, List.all_map]

theorem ppOf_cornerFlag (g : Grid) (s : Nat) : ppOf (cornerFlag g s) = ppOf g := by
  unfold cornerFlag
  split <;> rfl

theorem ppOf_linkCB (g : Grid) (env : NativeEnv) (d s : Nat) :
    ppOf (linkCoordBuffer g env d s).1 = ppOf g := by
  unfold linkCoordBuffer
  rcases env.coordBounds s with - | ⟨lb, ub⟩
  · rfl
  · exact ppOf_cornerFlag _ _

theorem ppOf_linkLoop (g : Grid) (env : NativeEnv) (s : Nat) :
    ∀ n, ppOf (linkCoordLoop g env s n).1 = ppOf g := by
  intro n
  induction n with
  | zero => rfl
  | succ k ih =>
    unfold linkCoordLoop
    rcases hk : linkCoordLoop g env s k with ⟨g1, e⟩
    rw [hk] at ih
    cases e with
    | some e2 => exact ih
    | none => exact (ppOf_linkCB g1 env k s).trans ih

theorem ppOf_link1D (g : Grid) (env : NativeEnv) (s : Nat) :
    ppOf (linkCoordBuffer1D g env s).1 = ppOf g := by
  unfold linkCoordBuffer1D
  rcases env.coordBounds s with - | ⟨lb, ub⟩
  · rfl
  · dsimp only
    split
    · exact ppOf_cornerFlag _ _
    · split
      · exact ppOf_cornerFlag _ _
      · rfl

theorem ppOf_verify (g : Grid) (env : NativeEnv) (s : Nat) (g1 : Grid)
    (h : verifyGridBounds g env s = .ok g1) : ppOf g1 = ppOf g := by
  obtain ⟨-, -, -, -, -, -, p1, p2, -, -, -, -⟩ := verify_ok_fields g env s g1 h
  simp [ppOf, p1, p2]

theorem ppOf_allocateCoords (g : Grid) (env : NativeEnv) (s : Nat) (ff : Bool) :
    ppOf (allocateCoords g env s ff).1 = ppOf g := by
  unfold allocateCoords
  rcases hv : verifyGridBounds g env s with e | g1
  · rfl
  · have hppv : ppOf g1 = ppOf g := ppOf_verify g env s g1 hv
    dsimp only
    set z : NdArray := npZeros ((g1.size.getD s none).getD []) with hz
    set G2 : Grid := setCoord (setCoord g1 s 0 (some z)) s 1 (some z) with hG2
    set G3 : Grid := if G2.rank = 3 then setCoord G2 s 2 (some z) else G2 with hG3
    have hpp3 : ppOf G3 = ppOf g := by
      rw [hG3]
      split
      · rw [hG2]; exact hppv
      · rw [hG2]; exact hppv
    have hX : ppOf (if G3.ndims = G3.rank ∨ G3.ndims = 0 then
        linkCoordLoop G3 env s G3.rank
        else if G3.ndims < G3.rank then
          (if ¬ G3.ndims = 1 then (G3, some GridError.ValueErrorCoordDims)
           else linkCoordBuffer1D G3 env s)
        else (G3, none)).1 = ppOf G3 := by
      split
      · exact ppOf_linkLoop G3 env s G3.rank
      · split
        · split
          · rfl
          · exact ppOf_link1D G3 env s
        · rfl
    rcases hXeq : (if G3.ndims = G3.rank ∨ G3.ndims = 0 then
        linkCoordLoop G3 env s G3.rank
        else if G3.ndims < G3.rank then
          (if ¬ G3.ndims = 1 then (G3, some GridError.ValueErrorCoordDims)
           else linkCoordBuffer1D G3 env s)
        else (G3, none)) with ⟨g4, e4⟩
    rw [hXeq] at hX
    cases e4 with
    | some e5 => exact hX.trans hpp3
    | none =>
      dsimp only
      by_cases hff : ff = true
      · rw [if_pos hff]
        exact hX.trans hpp3
      · rw [if_neg hff]
        have hfill : ppOf (if (modifyCoord (modifyCoord g4 s 0 (fun a => fillAll a 0)) s 1
            (fun a => fillAll a 0)).rank = 3 then
              modifyCoord (modifyCoord (modifyCoord g4 s 0 (fun a => fillAll a 0)) s 1
                (fun a => fillAll a 0)) s 2 (fun a => fillAll a 0)
            else modifyCoord (modifyCoord g4 s 0 (fun a => fillAll a 0)) s 1
              (fun a => fillAll a 0)) = ppOf g4 := by
          split <;> rfl
        exact hfill.trans (hX.trans hpp3)

theorem ppOf_allocateItems (g : Grid) (env : NativeEnv) (item : GridItem) (s : Nat)
    (ff : Bool) : ppOf (allocateItems g env item s ff).1 = ppOf g := by
  unfold allocateItems
  rcases hv : verifyGridBounds g env s with e | g1
  · rfl
  · have hppv : ppOf g1 = ppOf g := ppOf_verify g env s g1 hv
    dsimp only
    cases item
    · dsimp only
      unfold linkItemBuffer
      rcases env.coordBounds s with - | ⟨lb, ub⟩
      · exact hppv
      · dsimp only
        by_cases hff : ff = true
        · rw [if_pos hff]; exact hppv
        · rw [if_neg hff]; exact hppv
    · dsimp only
      unfold linkItemBuffer
      rcases env.coordBounds s with - | ⟨lb, ub⟩
      · exact hppv
      · dsimp only
        by_cases hff : ff = true
        · rw [if_pos hff]; exact hppv
        · rw [if_neg hff]; exact hppv
    · exact hppv

theorem ppOf_addCoordsLoop (env : NativeEnv) (ff : Bool) :
    ∀ (l : List Nat) (g : Grid), ppOf (addCoordsLoop env ff g l).1 = ppOf g := by
  intro l
  induction l with
  | nil => intro g; rfl
  | cons s rest ih =>
    intro g
    unfold addCoordsLoop
    by_cases h : (coordAt g s 0).isSome = true
    · rw [if_pos h]
      exact ih g
    · rw [if_neg h]
      rcases ha2 : allocateCoords g env s ff with ⟨g1, e1⟩
      have hpa := ppOf_allocateCoords g env s ff
      rw [ha2] at hpa
      cases e1 with
      | some e2 => exact hpa
      | none => exact (ih _).trans hpa

theorem ppOf_addItemLoop (env : NativeEnv) (item : GridItem) (ff : Bool) :
    ∀ (l : List Nat) (g : Grid), ppOf (addItemLoop env item ff g l).1 = ppOf g := by
  intro l
  induction l with
  | nil => intro g; rfl
  | cons s rest ih =>
    intro g
    unfold addItemLoop
    dsimp only
    cases item
    · by_cases hM : (g.mask.getD s none).isSome = true
      · rw [if_pos hM]
      · rw [if_neg hM]
        dsimp only
        rcases ha2 : allocateItems g env GridItem.MASK s ff with ⟨g1, e1⟩
        have hpa := ppOf_allocateItems g env GridItem.MASK s ff
        rw [ha2] at hpa
        cases e1 with
        | some e2 => exact hpa
        | none => exact (ih g1).trans hpa
    · by_cases hA : (g.area.getD s none).isSome = true
      · rw [if_pos hA]
      · rw [if_neg hA]
        dsimp only
        rcases ha2 : allocateItems g env GridItem.AREA s ff with ⟨g1, e1⟩
        have hpa := ppOf_allocateItems g env GridItem.AREA s ff
        rw [ha2] at hpa
        cases e1 with
        | some e2 => exact hpa
        | none => exact (ih g1).trans hpa
    · rfl

theorem ppOf_addCoords (g : Grid) (env : NativeEnv) (sl : Option (List Nat))
    (cd : Option Nat) (ff : Bool) : ppOf (addCoords g env sl cd ff).1 = ppOf g := by
  unfold addCoords
  dsimp only
  rcases h : addCoordsLoop env ff g (sl.getD [StaggerLoc.CENTER]) with ⟨g1, ws, e⟩
  have hp := ppOf_addCoordsLoop env ff (sl.getD [StaggerLoc.CENTER]) g
  rw [h] at hp
  cases e with
  | some e2 => exact hp
  | none =>
    cases cd with
    | none => exact hp
    | some cd2 =>
      by_cases hl : (sl.getD [StaggerLoc.CENTER]).length = 1
      · simp only [hl, if_true]
        exact hp
      · simp only [if_neg hl]
        exact hp

theorem ppOf_addItem (g : Grid) (env : NativeEnv) (item : GridItem)
    (sl : Option (List Nat)) (ff : Bool) : ppOf (addItem g env item sl ff).1 = ppOf g := by
  unfold addItem
  dsimp only
  rcases h : addItemLoop env item ff g (sl.getD [StaggerLoc.CENTER]) with ⟨g1, n, e⟩
  have hp := ppOf_addItemLoop env item ff (sl.getD [StaggerLoc.CENTER]) g
  rw [h] at hp
  rcases e with - | e2 <;> dsimp only
  · split
    · cases item <;> exact hp
    · exact hp
  · exact hp

theorem ppOf_initAddCoordsStep (g : Grid) (env : NativeEnv) (sl : Option (List Nat))
    (ff : Bool) : ppOf (initAddCoordsStep g env sl ff).1 = ppOf g := by
  rcases sl with - | l
  · rfl
  · have hp := ppOf_addCoords g env (some l) none ff
    rcases h : addCoords g env (some l) none ff with ⟨g2, ws, e⟩
    rw [h] at hp
    cases e with
    | error e2 =>
      simp only [initAddCoordsStep, h]
      exact hp
    | ok r =>
      simp only [initAddCoordsStep, h]
      exact hp

theorem ppOf_initAddItemStep (g : Grid) (env : NativeEnv) (item : GridItem)
    (flag : Option Bool) (ff : Bool) :
    ppOf (initAddItemStep g env item flag ff).1 = ppOf g := by
  have hp := ppOf_addItem g env item (some [StaggerLoc.CENTER]) ff
  rcases h : addItem g env item (some [StaggerLoc.CENTER]) ff with ⟨g2, n, e⟩
  rw [h] at hp
  unfold initAddItemStep
  by_cases hf : flag.getD false = true
  · rw [if_pos hf, h]
    cases e with
    | error e2 => exact hp
    | ok r => exact hp
  · rw [if_neg hf]

theorem gridFinish_ok_pp (g0 : Grid) (env : NativeEnv) (sl : Option (List Nat))
    (aua am : Option Bool) (ff : Bool) (gres : Grid)
    (h : gridFinish g0 env sl aua am ff = .ok gres) : ppOf gres = ppOf g0 := by
  unfold gridFinish at h
  rcases h1 : initAddCoordsStep g0 env sl ff with ⟨g1, e1⟩
  have hp1 := ppOf_initAddCoordsStep g0 env sl ff
  rw [h1] at hp1 h
  cases e1 with
  | some e => simp at h
  | none =>
    simp only [] at h
    rcases h2 : initAddItemStep g1 env GridItem.AREA aua ff with ⟨g2, e2⟩
    have hp2 := ppOf_initAddItemStep g1 env GridItem.AREA aua ff
    rw [h2] at hp2 h
    cases e2 with
    | some e => simp at h
    | none =>
      simp only [] at h
      rcases h3 : initAddItemStep g2 env GridItem.MASK am ff with ⟨g3, e3⟩
      have hp3 := ppOf_initAddItemStep g2 env GridItem.MASK am ff
      rw [h3] at hp3 h
      cases e3 with
      | some e => simp at h
      | none =>
        simp only [] at h
        cases h
        exact (hp3.trans hp2).trans hp1

/-- C10: an in-memory construction with `num_peri_dims = 1` and
`periodic_dim = None` yields a grid whose `periodic_dim` is 0 and whose
`pole_dim` is 1 (not the documented defaults of 1 and 2). -/
theorem C10_one_peri_defaults (a : GridArgs) (env : NativeEnv) (mi : List Int)
    (g : Grid) (n : Nat)
    (hmi : a.max_index = some mi) (hnp : a.num_peri_dims = some 1)
    (hpd : a.periodic_dim = none)
    (hok : gridInit a env = (.ok g, n)) :
    g.periodic_dim = some 0 ∧ g.pole_dim = some 1 := by
  unfold gridInit at hok
  rw [hmi, hnp, hpd] at hok
  norm_num at hok
  have hfin : gridFinish
      (grid0 mi mi.length mi.length 1 (some 0) (some 1) a.coord_sys a.coord_typekind)
      env a.staggerloc a.add_user_area a.add_mask false = .ok g := hok.1
  have hpp := gridFinish_ok_pp _ env a.staggerloc a.add_user_area a.add_mask false g hfin
  have : ppOf g = (some 0, some 1) := hpp
  exact ⟨congrArg Prod.fst this, congrArg Prod.snd this⟩

/-- Witness for C10 at a concrete construction. -/
theorem C10_one_peri_defaults_witness :
    ((gridInit { max_index := some [4, 4], num_peri_dims := some 1 } env0).1.toOption.map
      (fun g => (g.periodic_dim, g.pole_dim))) = some (some 0, some 1) := by
  have hok : gridInit { max_index := some [4, 4], num_peri_dims := some 1 } env0
      = (.ok { grid0 [4, 4] 2 2 1 (some 0) (some 1) none none with
          finalized := some false }, 1) := by rfl
  have h := C10_one_peri_defaults { max_index := some [4, 4], num_peri_dims := some 1 }
    env0 [4, 4] _ 1 rfl rfl rfl hok
  rw [hok]
  simp only [Except.toOption, Option.map]
  rw [h.1, h.2]

/-- Witness for C5 at the fresh concrete grid `gEx`. -/
theorem C5_fresh_item_contents_witness :
    ((addItem gEx env0 GridItem.AREA (some [StaggerLoc.CENTER]) false).1.area.getD
        StaggerLoc.CENTER none).map (fun a => a.data.all (fun x => x == 0))
      = some true ∧
    ((addItem gEx env0 GridItem.MASK (some [StaggerLoc.CENTER]) false).1.mask.getD
        StaggerLoc.CENTER none).map (fun a => a.data.all (fun x => x == 1))
      = some true :=
  ⟨(C5_fresh_item_contents gEx env0 [0, 0] [4, 4] (by decide) (by decide) (by decide)
      rfl (by decide) (by decide) (by decide)).2.1,
   (C5_fresh_item_contents gEx env0 [0, 0] [4, 4] (by decide) (by decide) (by decide)
      rfl (by decide) (by decide) (by decide)).2.2.2.2.1⟩

/-- C2 counterexample: constructing an in-memory 4x4 grid with `staggerloc`
left unspecified leaves every staggerloc flag False — in particular the flag
at the documented default stagger location (CENTER) is False, refuting the
claim that the flags are all False except the requested default stagger
location.  The constructor only calls `add_coords` when a staggerloc is
explicitly supplied. -/
theorem C2_default_stagger_not_populated :
    ((gridInit { max_index := some [4, 4] } env0).1.toOption.map
      (fun g => g.staggerloc.getD StaggerLoc.CENTER false)) = some false ∧
    ((gridInit { max_index := some [4, 4] } env0).1.toOption.map
      (fun g => g.staggerloc)) = some [false, false, false, false] := by
  constructor <;> rfl

/-- C2 (amended): for a valid `max_index` of length 2 or 3, an in-memory
construction with an explicitly requested stagger location `s` yields
`rank = len(max_index)` and a staggerloc flag list of length `2 ** rank`
that is False everywhere except at `s`; when `staggerloc` is omitted, no
location is populated and all `2 ** rank` flags are False. -/
theorem C2_inmemory_staggerloc_flags (mi : List Int) (s : Nat) (env : NativeEnv)
    (lb ub : List Int)
    (hlen : mi.length = 2 ∨ mi.length = 3)
    (hs : s < 2 ^ mi.length)
    (henv : env.coordBounds s = some (lb, ub)) :
    ((gridInit { max_index := some mi, staggerloc := some [s] } env).1.toOption.map
      (fun g => (g.rank, g.staggerloc)))
      = some (mi.length, (List.replicate (2 ^ mi.length) false).set s true) ∧
    ((gridInit { max_index := some mi } env).1.toOption.map
      (fun g => (g.rank, g.staggerloc)))
      = some (mi.length, List.replicate (2 ^ mi.length) false) := by
  have h0len : 0 < mi.length := by rcases hlen with h | h <;> omega
  set g0 : Grid := grid0 mi mi.length mi.length 0 none none none none with hg0
  have hfresh : coordAt g0 s 0 = none := by
    unfold coordAt
    rw [hg0]
    unfold grid0
    dsimp only
    rw [getD_replicate_lt _ _ _ _ hs, getD_replicate_lt _ _ _ _ h0len]
  have hlb : g0.lower_bounds.getD s none = none := by
    rw [hg0]
    unfold grid0
    dsimp only
    rw [getD_replicate_lt _ _ _ _ hs]
  obtain ⟨a1, a2, a3, a4, a5, a6, a7, a8, a9⟩ :=
    allocateCoords_fresh g0 env s lb ub hlb henv rfl
      (by rw [hg0]; exact hlen)
      (by rw [hg0]; unfold grid0; dsimp only; simpa using hs)
      (by rw [hg0]; unfold grid0; dsimp only
          rw [getD_replicate_lt _ _ _ _ hs]; simp)
      (by rw [hg0]; unfold grid0; dsimp only; simpa using hs)
      (by rw [hg0]; unfold grid0; dsimp only; simpa using hs)
      (by rw [hg0]; unfold grid0; dsimp only; simpa using hs)
  rcases halloc : allocateCoords g0 env s false with ⟨g1, e1⟩
  rw [halloc] at a1 a2 a3
  cases e1 with
  | some e2 => simp at a1
  | none =>
    have key : addCoords g0 env (some [s]) none false
        = ({ g1 with staggerloc := g1.staggerloc.set s true }, [], .ok none) := by
      simp [addCoords, addCoordsLoop, hfresh, halloc]
    have hstep : initAddCoordsStep g0 env (some [s]) false
        = ({ g1 with staggerloc := g1.staggerloc.set s true }, none) := by
      simp [initAddCoordsStep, key]
    have hfin : gridFinish g0 env (some [s]) none none false
        = .ok { g1 with staggerloc := g1.staggerloc.set s true,
                        finalized := some false } := by
      simp [gridFinish, hstep, initAddItemStep]
    have hinit : gridInit { max_index := some mi, staggerloc := some [s] } env
        = (gridFinish g0 env (some [s]) none none false, 1) := by
      rw [hg0]
      rfl
    constructor
    · rw [hinit, hfin]
      simp only [Except.toOption, Option.map]
      have hrank : g1.rank = mi.length := by rw [a3, hg0]; rfl
      have hstag : g1.staggerloc = List.replicate (2 ^ mi.length) false := by
        rw [a2, hg0]; rfl
      rw [hrank, hstag]
    · rfl

/-- Witness for the amended C2 at a 4x4 grid with the CORNER stagger
requested. -/
theorem C2_inmemory_staggerloc_flags_witness :
    ((gridInit { max_index := some [4, 4], staggerloc := some [StaggerLoc.CORNER] }
        env0).1.toOption.map (fun g => (g.rank, g.staggerloc)))
      = some (2, [false, false, false, true]) ∧
    ((gridInit { max_index := some ([4, 4] : List Int) } env0).1.toOption.map
      (fun g => (g.rank, g.staggerloc)))
      = some (2, List.replicate 4 false) :=
  C2_inmemory_staggerloc_flags [4, 4] StaggerLoc.CORNER env0 [0, 0] [4, 4]
    (Or.inl rfl) (by decide) rfl
